import Mathlib

/-!
# Verification of the AEO audit tool's Site Snapshot Pipeline

Shallow embedding of the crawler (`src/lib/crawler.js`), the key-page
detector, the content-coverage analyzer, the structured-data collector and
the monitoring/diff engine (`src/lib/monitoring.js`), together with proofs
of the behavioural claims about them.

Conventions of the embedding:
* JavaScript numbers that only ever hold integers are modelled as `Nat`/`Int`;
  the key-page content score, which uses non-integral division (`word_count / 10`),
  is modelled as `ℚ`.
* Possibly-absent JSON fields (`a?.b` access, `x || dflt` defaulting) are
  modelled as `Option` with explicit JS-truthiness helpers.
* Network fetches are modelled by an oracle `String → FetchOutcome` passed as a
  parameter; a thrown fetch error is `FetchOutcome.err msg`.
* The regex scanners that pull `href` attribute values, JSON-LD script-block
  texts and meta-tag key/value pairs out of raw HTML are treated as the
  embedding boundary: a page's HTML is represented by the lists those scanners
  produce.  `JSON.parse` of a JSON-LD block text is represented by its result,
  an `Option JsonValue` (`none` for malformed JSON).
* Wall-clock timestamp fields (`crawled_at`, `diff.timestamp`) are metadata
  irrelevant to every claim and are omitted from the records.
-/

/-! ## JavaScript-style string helpers (over `List Char`) -/

/-- Does `p` occur at the head of `cs`?  (helper for the string predicates) -/
def leadMatch : List Char → List Char → Bool
  | [], _ => true
  | _ :: _, [] => false
  | p :: ps, c :: cs => p == c && leadMatch ps cs

/-- Does `pat` occur contiguously anywhere in `text`? -/
def subMatch (pat : List Char) : List Char → Bool
  | [] => pat.isEmpty
  | c :: cs => leadMatch pat (c :: cs) || subMatch pat cs

/-- JS `s.includes(pat)`. -/
def strIncludes (s pat : String) : Bool := subMatch pat.toList s.toList

/-- JS `s.startsWith(pat)`. -/
def strStarts (s pat : String) : Bool := leadMatch pat.toList s.toList

/-- JS `s.endsWith(pat)`. -/
def strEnds (s pat : String) : Bool := leadMatch pat.toList.reverse s.toList.reverse

/-- JS `s.toLowerCase()` (ASCII case folding suffices for the URLs involved). -/
def strToLower (s : String) : String := String.mk (s.toList.map Char.toLower)

/-- Whitespace characters removed by JS `String.prototype.trim`. -/
def isJsSpace (c : Char) : Bool := c == ' ' || c == '\t' || c == '\n' || c == '\r'

/-- JS `s.trim()`. -/
def jsTrim (s : String) : String :=
  String.mk (((s.toList.dropWhile isJsSpace).reverse.dropWhile isJsSpace).reverse)

/-- Order-preserving deduplication with a `seen` accumulator: the semantics of
JS `[...new Set(xs)]` (first occurrence kept, insertion order preserved). -/
def dedupSeen [DecidableEq α] (seen : List α) : List α → List α
  | [] => []
  | a :: as => if a ∈ seen then dedupSeen seen as else a :: dedupSeen (a :: seen) as

/-- JS `[...new Set(xs)]`. -/
def dedupFirst [DecidableEq α] (l : List α) : List α := dedupSeen [] l

/-! ## Crawler (`src/lib/crawler.js`) -/

/-- A resolved absolute URL, as produced by JS `new URL(href, base)`:
`host` is `.hostname`, `href` the canonical `.href` string. -/
structure Url where
  host : String
  href : String
deriving DecidableEq, Repr

/-- `extractLinks` skips hrefs starting with `#`, `javascript:`, `mailto:`, `tel:`
(crawler.js lines 46-49). -/
def jsSkipHref (h : String) : Bool :=
  strStarts h "#" || strStarts h "javascript:" || strStarts h "mailto:" || strStarts h "tel:"

/-- `extractLinks(html, base)` (crawler.js lines 37-68): iterate over the href
attribute values scanned out of the HTML, skip anchor/protocol hrefs, resolve
each against `base` (`resolve` models `new URL(href, base)`, `none` when the
constructor throws), keep only links whose hostname equals the base hostname,
and deduplicate preserving first occurrence. -/
def extractLinks (resolve : String → Url → Option Url) (hrefs : List String) (base : Url) :
    List Url :=
  dedupFirst ((hrefs.filter (fun h => !jsSkipHref h)).filterMap (fun h =>
    (resolve h base).bind (fun u => if u.host = base.host then some u else none)))

/-- The link-count computation of crawler.js lines 163-166:
`internal_links = allLinks.filter(l => hostname(l) === baseUrl.hostname).length`,
`external_links = allLinks.length - internal_links`. -/
def linkCounts (seedHost : String) (allLinks : List Url) : Nat × Nat :=
  let internal := (allLinks.filter (fun l => decide (l.host = seedHost))).length
  (internal, allLinks.length - internal)

/-- All resolvable, non-skipped links of a page (no host filtering):
the raw material both spec-side distinct-link counts are taken from. -/
def resolvedLinks (resolve : String → Url → Option Url) (hrefs : List String) (base : Url) :
    List Url :=
  (hrefs.filter (fun h => !jsSkipHref h)).filterMap (fun h => resolve h base)

/-- Spec-side definition, following the specification's words: the distinct
same-hostname links extracted from the page's own HTML. -/
def distinctSameHostLinks (resolve : String → Url → Option Url) (hrefs : List String)
    (base : Url) : List Url :=
  dedupFirst ((resolvedLinks resolve hrefs base).filter (fun u => decide (u.host = base.host)))

/-- Spec-side definition, following the specification's words: the distinct
cross-host links extracted from the page's own HTML. -/
def distinctCrossHostLinks (resolve : String → Url → Option Url) (hrefs : List String)
    (base : Url) : List Url :=
  dedupFirst ((resolvedLinks resolve hrefs base).filter (fun u => decide (¬ u.host = base.host)))

/-- A crawler Page Record (the fields of `pageData` that the claims are about;
the text fields produced by `extractMeta` — title, headings, word count — are
carried by the real record as well but play no role in any crawler claim).
On the success path `internal_links`/`external_links` are `some`; the fetch
failure record of crawler.js lines 180-184 has neither field (`none`). -/
structure CrawlPage where
  url : String
  status_code : Nat
  error : Option String
  internal_links : Option Nat
  external_links : Option Nat
deriving DecidableEq, Repr

/-- The crawler's shared mutable state: the visited set and the `pages` array. -/
structure CrawlState where
  visited : List String
  pages : List CrawlPage
deriving Repr

/-- Outcome of `fetchPage(url)` followed by `response.text()`: either a status
code together with the href values scanned from the body, or a thrown error. -/
inductive FetchOutcome where
  | ok (status : Nat) (hrefs : List String)
  | err (msg : String)

/-- The crawl environment: URL resolution, the network oracle and the seed
`baseUrl`. -/
structure CrawlEnv where
  resolve : String → Url → Option Url
  oracle : String → FetchOutcome
  base : Url

/-- `MAX_PAGES` (crawler.js line 11). -/
def maxPages : Nat := 10

mutual

/-- `crawl(url)` (crawler.js lines 147-186), with a fuel parameter standing for
the call-stack: each recursive `crawl` call consumes one unit.  All invariants
are proved for every fuel value, so exhausting fuel (returning the state as-is)
over-approximates every real run. -/
def crawlGo (env : CrawlEnv) : Nat → Url → CrawlState → CrawlState
  | 0, _, s => s
  | fuel + 1, u, s =>
    if u.href ∈ s.visited ∨ maxPages ≤ s.pages.length then s
    else
      let visited1 := u.href :: s.visited
      match env.oracle u.href with
      | FetchOutcome.err msg =>
          { visited := visited1,
            pages := s.pages ++ [{ url := u.href, status_code := 0, error := some msg,
                                   internal_links := none, external_links := none }] }
      | FetchOutcome.ok status hrefs =>
          let allLinks := extractLinks env.resolve hrefs u
          let counts := linkCounts env.base.host allLinks
          let pages2 := s.pages ++ [{ url := u.href, status_code := status, error := none,
                                      internal_links := some counts.1,
                                      external_links := some counts.2 }]
          let internalLinks := allLinks.filter (fun l => decide (l.host = env.base.host))
          crawlList env fuel (internalLinks.take (maxPages - pages2.length))
            { visited := visited1, pages := pages2 }
termination_by fuel _u _s => (fuel, 0)

/-- The `for (const link of internalLinks.slice(0, ...))` loop of crawler.js
lines 172-176, re-checking the visited set before each recursive call. -/
def crawlList (env : CrawlEnv) : Nat → List Url → CrawlState → CrawlState
  | _, [], s => s
  | fuel, l :: ls, s =>
      crawlList env fuel ls (if l.href ∈ s.visited then s else crawlGo env fuel l s)
termination_by fuel ls _s => (fuel, ls.length + 1)

end

/-! ## Key-Page Detector (`detectKeyPages`, src/unnamed/part_000) -/

/-- The fields of a snapshot page that `detectKeyPages` reads. -/
structure KPage where
  url : String
  status_code : Nat
  title : String
  word_count : Nat
  internal_links : Nat
  h1 : List String
  h2 : List String
deriving DecidableEq, Repr

/-- One entry of the `key_pages` output of `detectKeyPages`. -/
structure KeyPageRec where
  url : String
  title : String
  type : String
  word_count : Nat
  internal_links : Nat
  key_headings : List String
  importance_score : ℤ
deriving DecidableEq, Repr

/-- The content-page filter of `detectKeyPages` (part_000 lines 14-25). -/
def kpIsContent (p : KPage) : Bool :=
  let url := strToLower p.url
  !strEnds url ".css" && !strEnds url ".js" && !strEnds url ".ico" &&
  !strEnds url ".png" && !strEnds url ".jpg" && !strEnds url ".gif" &&
  !strIncludes url "/static/" && decide (p.status_code = 200)

/-- JS `url.replace(/\/$/, '')`: remove one trailing slash if present. -/
def jsStripTrailSlash (s : String) : String :=
  match s.toList.getLast? with
  | some c => if c = '/' then String.mk s.toList.dropLast else s
  | none => s

/-- The condition `page.url === page.url.replace(/\/$/, '') || page.url.endsWith('/')`
used both for the homepage score bonus (part_000 line 44) and for the
`'homepage'` classification (line 58). -/
def kpRootCond (url : String) : Bool :=
  decide (url = jsStripTrailSlash url) || strEnds url "/"

/-- The content-richness score of `detectKeyPages` (part_000 lines 28-49).
`word_count / 10` is JS float division, hence `ℚ`. -/
def kpScore (p : KPage) : ℚ :=
  min ((p.word_count : ℚ) / 10) 40 + (p.internal_links : ℚ) * 10 +
  (if !p.h1.isEmpty then (20 : ℚ) else 0) +
  (if !p.h2.isEmpty then (10 : ℚ) else 0) +
  (if kpRootCond p.url then (15 : ℚ) else 0)

/-- The URL-substring classification chain of `detectKeyPages`
(part_000 lines 58-62). -/
def classifyUrl (url : String) : String :=
  if kpRootCond url then "homepage"
  else if strIncludes url "/blog" then "blog"
  else if strIncludes url "/about" then "about"
  else if strIncludes url "/contact" then "contact"
  else if strIncludes url "/product" || strIncludes url "/service" then "product"
  else "content"

/-- Stable insertion (descending by score) used to model the stable JS
`Array.prototype.sort` with comparator `(a, b) => b._contentScore - a._contentScore`. -/
def insertScoredDesc (x : KPage × ℚ) : List (KPage × ℚ) → List (KPage × ℚ)
  | [] => [x]
  | y :: ys => if y.2 < x.2 then x :: y :: ys else y :: insertScoredDesc x ys

/-- Stable sort, descending by score (same result as any stable sort under the
same comparator, hence as V8's sort). -/
def sortScoredDesc (l : List (KPage × ℚ)) : List (KPage × ℚ) :=
  l.foldl (fun acc x => insertScoredDesc x acc) []

/-- `detectKeyPages(pages)` (part_000 lines 13-68): filter to content pages,
score, sort descending, take the top 10, and build the key-page entries. -/
def detectKeyPages (pages : List KPage) : List KeyPageRec :=
  let contentPages := pages.filter kpIsContent
  let scored := contentPages.map (fun p => (p, kpScore p))
  let sorted := sortScoredDesc scored
  (sorted.take 10).map (fun pq =>
    { url := pq.1.url, title := pq.1.title, type := classifyUrl pq.1.url,
      word_count := pq.1.word_count, internal_links := pq.1.internal_links,
      key_headings := (pq.1.h1 ++ pq.1.h2).take 5,
      importance_score := round pq.2 })

/-! ## Content Coverage analyzer (`analyzeContentCoverage`, src/unnamed/part_001) -/

/-- An image record as stored on a page (`{src, alt, has_alt}`). -/
structure CCImage where
  src : String
  alt : String
  has_alt : Bool
deriving DecidableEq, Repr

/-- The fields of a snapshot page that the content-coverage analyzer reads.
Absent string fields are the empty string (JS falsy), matching the analyzer's
`!x || x.trim() === ''` tests. -/
structure CCPage where
  url : String
  title : String
  meta_description : String
  h1 : List String
  word_count : Nat
  images : List CCImage
deriving DecidableEq, Repr

/-- An analyzer issue: `{type, severity, page, message}`. -/
structure Issue where
  type : String
  severity : String
  page : String
  message : String
deriving DecidableEq, Repr

/-- The asset filter of `analyzeContentCoverage` (part_001 lines 14-17). -/
def ccIsContent (p : CCPage) : Bool :=
  let url := strToLower p.url
  !strEnds url ".css" && !strEnds url ".js" && !strEnds url ".ico" &&
  !strEnds url ".png" && !strEnds url ".jpg"

/-- Check 1: meta descriptions (part_001 lines 20-36). -/
def ccMetaIssues (p : CCPage) : List Issue :=
  if jsTrim p.meta_description = "" then
    [{ type := "missing_meta_description", severity := "high", page := p.url,
       message := "Page missing meta description" }]
  else if p.meta_description.length < 50 then
    [{ type := "short_meta_description", severity := "medium", page := p.url,
       message := "Meta description too short (" ++ toString p.meta_description.length ++
         " chars). Recommended: 150-160" }]
  else []

/-- Check 2: H1 tags (part_001 lines 39-55). -/
def ccH1Issues (p : CCPage) : List Issue :=
  if p.h1.isEmpty then
    [{ type := "missing_h1", severity := "high", page := p.url,
       message := "Page missing H1 heading" }]
  else if 1 < p.h1.length then
    [{ type := "multiple_h1", severity := "medium", page := p.url,
       message := "Multiple H1 headings found (" ++ toString p.h1.length ++
         "). Should have exactly one." }]
  else []

/-- Check 3: title tags (part_001 lines 58-67). -/
def ccTitleIssues (p : CCPage) : List Issue :=
  if jsTrim p.title = "" then
    [{ type := "missing_title", severity := "high", page := p.url,
       message := "Page missing title tag" }]
  else []

/-- Check 4: word count (part_001 lines 70-79). -/
def ccThinIssues (p : CCPage) : List Issue :=
  if p.word_count < 50 then
    [{ type := "thin_content", severity := "medium", page := p.url,
       message := "Very low word count (" ++ toString p.word_count ++
         "). Pages should have substantial content." }]
  else []

/-- Check 5: image alt text (part_001 lines 82-94). -/
def ccImageIssues (p : CCPage) : List Issue :=
  if !p.images.isEmpty then
    let withoutAlt := p.images.filter (fun img => decide (jsTrim img.alt = ""))
    if 0 < withoutAlt.length then
      [{ type := "images_missing_alt", severity := "medium", page := p.url,
         message := toString withoutAlt.length ++ " images missing alt text" }]
    else []
  else []

/-- `calculateCoverageScore(pages, issues)` (part_001 lines 111-123). -/
def calculateCoverageScore (pages : List CCPage) (issues : List Issue) : Int :=
  if pages.isEmpty then 0
  else
    max 0 (min 100
      (100 - 15 * ((issues.filter (fun i => decide (i.severity = "high"))).length : Int)
           - 5 * ((issues.filter (fun i => decide (i.severity = "medium"))).length : Int)))

/-- The summary block of `analyzeContentCoverage` (part_001 lines 97-106). -/
structure CCSummary where
  total_content_pages : Nat
  pages_with_meta_description : Nat
  pages_with_h1 : Nat
  pages_with_title : Nat
  total_issues : Nat
  high_severity : Nat
  medium_severity : Nat
  coverage_score : Int
deriving DecidableEq, Repr

/-- Return value of `analyzeContentCoverage`. -/
structure CCResult where
  issues : List Issue
  summary : CCSummary
  contentPages : List CCPage
deriving DecidableEq, Repr

/-- The snapshot input of `analyzeContentCoverage` (`siteSnapshot.pages || []`). -/
structure CCSnapshot where
  pages : Option (List CCPage)
deriving DecidableEq, Repr

/-- `analyzeContentCoverage(siteSnapshot)` (part_001 lines 9-109): all five
checks run in order, each over all content pages. -/
def analyzeContentCoverage (snap : CCSnapshot) : CCResult :=
  let pages := snap.pages.getD []
  let contentPages := pages.filter ccIsContent
  let issues := contentPages.flatMap ccMetaIssues ++ contentPages.flatMap ccH1Issues ++
    contentPages.flatMap ccTitleIssues ++ contentPages.flatMap ccThinIssues ++
    contentPages.flatMap ccImageIssues
  { issues := issues,
    summary := {
      total_content_pages := contentPages.length,
      pages_with_meta_description :=
        (contentPages.filter (fun p => decide (¬ jsTrim p.meta_description = ""))).length,
      pages_with_h1 := (contentPages.filter (fun p => !p.h1.isEmpty)).length,
      pages_with_title := (contentPages.filter (fun p => decide (¬ jsTrim p.title = ""))).length,
      total_issues := issues.length,
      high_severity := (issues.filter (fun i => decide (i.severity = "high"))).length,
      medium_severity := (issues.filter (fun i => decide (i.severity = "medium"))).length,
      coverage_score := calculateCoverageScore contentPages issues },
    contentPages := contentPages }

/-! ## Structured-Data Collector (`extractStructuredData`, src/unnamed/part_002) -/

/-- A parsed JSON value (the result of a successful `JSON.parse`). -/
inductive JsonValue where
  | null : JsonValue
  | bool (b : Bool) : JsonValue
  | num (n : Int) : JsonValue
  | str (s : String) : JsonValue
  | arr (elems : List JsonValue) : JsonValue
  | obj (fields : List (String × JsonValue)) : JsonValue

/-- JS truthiness of a JSON value. -/
def jsonTruthy : JsonValue → Bool
  | JsonValue.null => false
  | JsonValue.bool b => b
  | JsonValue.num n => decide (¬ n = 0)
  | JsonValue.str s => decide (¬ s = "")
  | JsonValue.arr _ => true
  | JsonValue.obj _ => true

/-- JS property access `j[key]` (undefined on non-objects). -/
def jsonField (j : JsonValue) (key : String) : Option JsonValue :=
  match j with
  | JsonValue.obj fields => fields.lookup key
  | _ => none

/-- `parsed['@type'] || 'Unknown'` (part_002 line 485). -/
def schemaOfJsonLd (parsed : JsonValue) : JsonValue :=
  match jsonField parsed "@type" with
  | some v => if jsonTruthy v then v else JsonValue.str "Unknown"
  | none => JsonValue.str "Unknown"

/-- The `data` payload of a structured-data entry. -/
inductive SDData where
  | json (j : JsonValue)
  | tags (ts : List (String × String))
  | micro (element : String) (itemType : String)

/-- One entry of the structured-data extraction result
(`{type, schema, data}`, part_002 lines 483-487, 507-511, 523-527, 542-546). -/
structure SDEntry where
  type : String
  schema : JsonValue
  data : SDData

/-- `tags[key] || dflt` on a scanned meta-tag map. -/
def jsTagOr (tags : List (String × String)) (key dflt : String) : String :=
  match tags.lookup key with
  | some v => if v = "" then dflt else v
  | none => dflt

/-- JS `s.replace(']', '')` — remove the first `]` only. -/
def removeFirstRB : List Char → List Char
  | [] => []
  | c :: cs => if c = ']' then cs else c :: removeFirstRB cs

/-- `schemaUrl.split('/').pop().replace(']', '')` (part_002 line 541). -/
def microSchema (itemType : String) : String :=
  String.mk (removeFirstRB ((itemType.splitOn "/").getLastD "").toList)

/-- `extractStructuredData(html, url)` (part_002 lines 474-552).  Inputs are the
scanner outputs for one page's HTML: the `JSON.parse` result of each
`<script type="application/ld+json">` block in source order (`none` =
malformed JSON, skipped at lines 488-490), the OpenGraph tag map, the Twitter
Card tag map, and the `(element, itemtype)` pairs of the microdata scan. -/
def extractStructuredData (jsonLdBlocks : List (Option JsonValue))
    (ogTags twitterTags : List (String × String)) (microItems : List (String × String)) :
    List SDEntry :=
  (jsonLdBlocks.filterMap (fun blk => blk.map (fun parsed =>
    ({ type := "json-ld", schema := schemaOfJsonLd parsed, data := SDData.json parsed } : SDEntry))))
  ++ (if ogTags.isEmpty then [] else
      [{ type := "opengraph", schema := JsonValue.str (jsTagOr ogTags "og:type" "website"),
         data := SDData.tags ogTags }])
  ++ (if twitterTags.isEmpty then [] else
      [{ type := "twitter-card", schema := JsonValue.str (jsTagOr twitterTags "twitter:card" "summary"),
         data := SDData.tags twitterTags }])
  ++ microItems.map (fun em =>
      { type := "microdata", schema := JsonValue.str (microSchema em.2),
        data := SDData.micro em.1 em.2 })

/-! ## Monitoring engine (`src/lib/monitoring.js`) -/

/-- The fields of a snapshot page that `compareWithBaseline` reads
(`p.structured_data?.length || 0`). -/
structure MonPage where
  structured_data : Option (List SDEntry)

/-- The fields of a snapshot that `compareWithBaseline` reads.  Each `Option`
collapses the optional-chaining access to a possibly-absent nested field
(e.g. `health_score` stands for `snapshot.health_checks?.health_score`). -/
structure MonSnapshot where
  pages_crawled : Option Nat
  health_score : Option Int
  citation_score : Option Int
  coverage_score : Option Int
  total_issues_found : Option Int
  pages : Option (List MonPage)

/-- JS `x || y` for a possibly-absent number `x` (`0` is falsy). -/
def truthyOr (x : Option Int) (y : Int) : Int :=
  match x with
  | some v => if v = 0 then y else v
  | none => y

/-- The fallback score chain of monitoring.js lines 80-85:
`s.health_checks?.health_score || s.citation_readiness?.citation_score ||
s.content_coverage?.coverage_score || 0` — identical for every metric name. -/
def fallbackScore (s : MonSnapshot) : Int :=
  truthyOr s.health_score (truthyOr s.citation_score (truthyOr s.coverage_score 0))

/-- `snapshot.pages_crawled || 0` (monitoring.js lines 61-62). -/
def pageCountOf (s : MonSnapshot) : Int := ((s.pages_crawled.getD 0 : Nat) : Int)

/-- `snapshot.compilation_summary?.total_issues_found || 0` (lines 104-105). -/
def issuesOf (s : MonSnapshot) : Int := truthyOr s.total_issues_found 0

/-- `snapshot.pages?.reduce((sum, p) => sum + (p.structured_data?.length || 0), 0) || 0`
(monitoring.js lines 118-121). -/
def sdCountOf (s : MonSnapshot) : Int :=
  match s.pages with
  | some ps =>
      ((ps.foldl (fun acc p =>
        acc + (match p.structured_data with | some l => l.length | none => 0)) 0 : Nat) : Int)
  | none => 0

/-- One entry of `diff.changes`: `{type, baseline, current, delta}`. -/
structure Change where
  type : String
  baseline : Int
  current : Int
  delta : Int
deriving DecidableEq, Repr

/-- One entry of `diff.summary.scores`. -/
structure ScoreRec where
  baseline : Int
  current : Int
  delta : Int
deriving DecidableEq, Repr

/-- `diff.summary`. -/
structure DiffSummary where
  has_changes : Bool
  pages_added : Int
  pages_removed : Int
  scores : List (String × ScoreRec)
deriving DecidableEq, Repr

/-- A Diff (`{changes, summary}`; the wall-clock `timestamp` is omitted). -/
structure Diff where
  changes : List Change
  summary : DiffSummary
deriving DecidableEq, Repr

/-- The metric-name list of monitoring.js line 77. -/
def scoreMetricNames : List String := ["health_score", "citation_score", "content_coverage_score"]

/-- The page-count comparison (monitoring.js lines 60-74). -/
def pageChangesOf (cur base : MonSnapshot) : List Change :=
  if pageCountOf cur ≠ pageCountOf base then
    [{ type := "page_count", baseline := pageCountOf base, current := pageCountOf cur,
       delta := pageCountOf cur - pageCountOf base }]
  else []

/-- The score-metric loop (monitoring.js lines 79-101): for each metric name,
both scores are recomputed by the metric-independent `fallbackScore` chain. -/
def scoreChangesOf (cur base : MonSnapshot) : List Change :=
  scoreMetricNames.flatMap (fun metric =>
    let currentScore := fallbackScore cur
    let baselineScore := fallbackScore base
    if currentScore ≠ baselineScore then
      [{ type := metric, baseline := baselineScore, current := currentScore,
         delta := currentScore - baselineScore }]
    else [])

/-- The `summary.scores` assignments of the same loop (lines 95-99). -/
def scoreSummaryOf (cur base : MonSnapshot) : List (String × ScoreRec) :=
  scoreMetricNames.flatMap (fun metric =>
    let currentScore := fallbackScore cur
    let baselineScore := fallbackScore base
    if currentScore ≠ baselineScore then
      [(metric, { baseline := baselineScore, current := currentScore,
                  delta := currentScore - baselineScore })]
    else [])

/-- The issue-count comparison (monitoring.js lines 103-115). -/
def issueChangesOf (cur base : MonSnapshot) : List Change :=
  if issuesOf cur ≠ issuesOf base then
    [{ type := "issues_count", baseline := issuesOf base, current := issuesOf cur,
       delta := issuesOf cur - issuesOf base }]
  else []

/-- The structured-data-count comparison (monitoring.js lines 117-131). -/
def sdChangesOf (cur base : MonSnapshot) : List Change :=
  if sdCountOf cur ≠ sdCountOf base then
    [{ type := "structured_data_count", baseline := sdCountOf base, current := sdCountOf cur,
       delta := sdCountOf cur - sdCountOf base }]
  else []

/-- `compareWithBaseline(currentSnapshot, baseline)` (monitoring.js lines 48-134).
`summary.has_changes` is set on each push, hence true iff `changes` is nonempty. -/
def compareWithBaseline (cur base : MonSnapshot) : Diff :=
  let changes := pageChangesOf cur base ++ scoreChangesOf cur base ++
    issueChangesOf cur base ++ sdChangesOf cur base
  { changes := changes,
    summary := {
      has_changes := !changes.isEmpty,
      pages_added := if pageCountOf cur ≠ pageCountOf base then
          max 0 (pageCountOf cur - pageCountOf base) else 0,
      pages_removed := if pageCountOf cur ≠ pageCountOf base then
          max 0 (pageCountOf base - pageCountOf cur) else 0,
      scores := scoreSummaryOf cur base } }

/-- `config.monitoring.alert_thresholds`. -/
structure Thresholds where
  new_issues_critical : Int
  score_drop_above : Int
  pages_removed_above : Int
deriving DecidableEq, Repr

/-- An alert `{level, message}`. -/
structure Alert where
  level : String
  message : String
deriving DecidableEq, Repr

/-- The per-change alert gates of `checkThresholds` (monitoring.js lines 145-166),
in source order. -/
def changeAlerts (t : Thresholds) (change : Change) : List Alert :=
  (if change.type = "issues_count" ∧ t.new_issues_critical < change.delta then
    [{ level := "critical", message := toString change.delta ++ " new issues detected" }]
  else [])
  ++ (if strIncludes change.type "score" = true ∧ change.delta < -t.score_drop_above then
    [{ level := "warning", message := change.type ++ " dropped by " ++
        toString change.delta.natAbs ++ " points" }]
  else [])
  ++ (if change.type = "page_count" ∧ change.delta < -t.pages_removed_above then
    [{ level := "warning", message := toString change.delta.natAbs ++ " pages removed" }]
  else [])

/-- `checkThresholds(diff, thresholds)` (monitoring.js lines 142-169). -/
def checkThresholds (diff : Diff) (t : Thresholds) : List Alert :=
  diff.changes.flatMap (changeAlerts t)

/-- Spec-side definition, following the specification's words: three independent
gates — a critical alert for an `issues_count` change with delta above
`new_issues_critical`; a warning for each change of one of the three score
metric types with delta below `-score_drop_above`; a warning for a `page_count`
change with delta below `-pages_removed_above`. -/
def specChangeAlerts (t : Thresholds) (change : Change) : List Alert :=
  (if change.type = "issues_count" ∧ t.new_issues_critical < change.delta then
    [{ level := "critical", message := toString change.delta ++ " new issues detected" }]
  else [])
  ++ (if (change.type = "health_score" ∨ change.type = "citation_score" ∨
          change.type = "content_coverage_score") ∧ change.delta < -t.score_drop_above then
    [{ level := "warning", message := change.type ++ " dropped by " ++
        toString change.delta.natAbs ++ " points" }]
  else [])
  ++ (if change.type = "page_count" ∧ change.delta < -t.pages_removed_above then
    [{ level := "warning", message := toString change.delta.natAbs ++ " pages removed" }]
  else [])

/-- The change types `compareWithBaseline` can produce. -/
def monChangeTypes : List String :=
  ["page_count", "health_score", "citation_score", "content_coverage_score",
   "issues_count", "structured_data_count"]

/-- One history entry `{diff, alerts}` (the wall-clock `checked_at` is omitted). -/
structure HistEntry where
  diff : Diff
  alerts : List Alert
deriving DecidableEq, Repr

/-- The history entry appended by one `runMonitoringCheck(currentSnapshot)` call
(monitoring.js lines 192-201). -/
def mkHistEntry (t : Thresholds) (base cur : MonSnapshot) : HistEntry :=
  let d := compareWithBaseline cur base
  { diff := d, alerts := checkThresholds d t }

/-- The history push-and-trim of monitoring.js lines 197-206:
append, then keep only the last 30 entries (`slice(-30)`). -/
def pushHistory (h : List HistEntry) (e : HistEntry) : List HistEntry :=
  let h2 := h ++ [e]
  if 30 < h2.length then h2.drop (h2.length - 30) else h2

/-- Sequential `runMonitoringCheck` calls with the configuration enabled and a
fixed baseline present: each call compares, evaluates thresholds, and pushes
its history entry onto the persisted history. -/
def runChecks (t : Thresholds) (base : MonSnapshot) (h : List HistEntry)
    (snaps : List MonSnapshot) : List HistEntry :=
  snaps.foldl (fun hist cur => pushHistory hist (mkHistEntry t base cur)) h

/-! ## Concrete inputs used by counterexamples and witnesses -/

/-- The seed URL `https://example.com/` as a resolved `Url`. -/
def cexBase : Url := { host := "example.com", href := "https://example.com/" }

/-- A concrete URL resolver recognising one cross-host and one same-host href. -/
def cexResolve : String → Url → Option Url := fun h _ =>
  if h = "https://other.example/x" then
    some { host := "other.example", href := "https://other.example/x" }
  else if h = "https://example.com/a" then
    some { host := "example.com", href := "https://example.com/a" }
  else none


/-- Every recorded page's URL is in the visited set (the crawler adds a URL to
`visited` before recording any page for it). -/
def UrlsInVisited (s : CrawlState) : Prop := ∀ p ∈ s.pages, p.url ∈ s.visited

/-- The crawl-state invariant behind the page budget and uniqueness claims. -/
def CrawlInv (s : CrawlState) : Prop :=
  s.pages.length ≤ maxPages ∧ (s.pages.map CrawlPage.url).Nodup ∧ UrlsInVisited s

/-- HTTP semantics of the fetch oracle: a response that did not throw never has
status 0 (real HTTP status codes are ≥ 100; crawler.js reserves 0 for thrown
fetch errors). -/
def OracleNonZero (env : CrawlEnv) : Prop :=
  ∀ url st hrefs, env.oracle url = FetchOutcome.ok st hrefs → st ≠ 0

/-- The per-page invariant of claim C7: `status_code = 0` iff `error` present. -/
def StatusErrInv (s : CrawlState) : Prop :=
  ∀ p ∈ s.pages, (p.status_code = 0 ↔ p.error.isSome = true)

/-- Is a change entry one of the three score metrics? -/
def isScoreMetricType (c : Change) : Bool :=
  decide (c.type = "health_score") || decide (c.type = "citation_score") ||
  decide (c.type = "content_coverage_score")

/-- A non-root page whose URL contains `/blog` (failing input for claim C2). -/
def c2page : KPage :=
  { url := "https://example.com/blog/post", status_code := 200, title := "Blog Post",
    word_count := 500, internal_links := 2, h1 := ["Post"], h2 := [] }

/-- The one-page snapshot of claim C8: status 200, 30 words, a title, no meta
description, no H1, no images. -/
def c8page : CCPage :=
  { url := "https://example.com/", title := "Example Domain", meta_description := "",
    h1 := [], word_count := 30, images := [] }

/-- A concrete diff exercising all three threshold gates. -/
def c5diffW : Diff :=
  { changes := [
      { type := "issues_count", baseline := 0, current := 7, delta := 7 },
      { type := "health_score", baseline := 80, current := 60, delta := -20 },
      { type := "page_count", baseline := 10, current := 3, delta := -7 }],
    summary := { has_changes := true, pages_added := 0, pages_removed := 7, scores := [] } }

/-- Concrete alert thresholds. -/
def c5thrW : Thresholds :=
  { new_issues_critical := 5, score_drop_above := 10, pages_removed_above := 5 }

/-- A concrete crawl environment whose oracle succeeds (status 200) on the seed
and throws on every other URL. -/
def c7envW : CrawlEnv :=
  { resolve := fun _ _ => none,
    oracle := fun h => if h = "https://example.com/" then FetchOutcome.ok 200 []
                       else FetchOutcome.err "fetch failed",
    base := cexBase }

/-- A snapshot with every optional field absent. -/
def monS0 : MonSnapshot :=
  { pages_crawled := none, health_score := none, citation_score := none,
    coverage_score := none, total_issues_found := none, pages := none }

/-- Concrete thresholds for the monitoring-history witness. -/
def monT0 : Thresholds :=
  { new_issues_critical := 3, score_drop_above := 10, pages_removed_above := 2 }

/-! ## Theorems -/

theorem mem_of_mem_dedupSeen [DecidableEq α] :
    ∀ (l seen : List α) (a : α), a ∈ dedupSeen seen l → a ∈ l := by
  intro l
  induction l with
  | nil => intro seen a h; simp [dedupSeen] at h
  | cons b bs ih =>
      intro seen a h
      by_cases hb : b ∈ seen
      · simp only [dedupSeen, if_pos hb] at h
        exact List.mem_cons_of_mem _ (ih _ _ h)
      · simp only [dedupSeen, if_neg hb, List.mem_cons] at h
        rcases h with h | h
        · simp [h]
        · exact List.mem_cons_of_mem _ (ih _ _ h)

theorem extractLinks_eq_sameHost (resolve : String → Url → Option Url)
    (hrefs : List String) (base : Url) :
    extractLinks resolve hrefs base = distinctSameHostLinks resolve hrefs base := by
  unfold extractLinks distinctSameHostLinks resolvedLinks dedupFirst
  congr 1
  generalize hrefs.filter (fun h => !jsSkipHref h) = l
  induction l with
  | nil => rfl
  | cons h t ih =>
      simp only [List.filterMap_cons]
      cases hr : resolve h base with
      | none => simpa using ih
      | some u =>
          by_cases hu : u.host = base.host
          · simp [hu, ih, List.filter_cons]
          · simp [hu, ih]

theorem host_of_mem_extractLinks {resolve : String → Url → Option Url}
    {hrefs : List String} {base : Url} {u : Url}
    (hmem : u ∈ extractLinks resolve hrefs base) : u.host = base.host := by
  unfold extractLinks dedupFirst at hmem
  have h2 := mem_of_mem_dedupSeen _ _ _ hmem
  simp only [List.mem_filterMap] at h2
  obtain ⟨h, _, hh⟩ := h2
  cases hr : resolve h base with
  | none =>
      rw [hr] at hh
      exact Option.noConfusion hh
  | some v =>
      rw [hr] at hh
      have hh2 : (if v.host = base.host then some v else none) = some u := hh
      by_cases hv : v.host = base.host
      · rw [if_pos hv] at hh2
        cases hh2
        exact hv
      · rw [if_neg hv] at hh2
        exact Option.noConfusion hh2

/-- C1 counterexample: a page whose HTML holds one cross-host link.
`extractLinks` drops cross-host links before they are ever counted
(crawler.js line 59), so the computed `external_links` is `0`, not the number
of distinct cross-host links (here `1`): the claim that `external_links`
equals the number of distinct cross-host links is false. -/
theorem c1_external_links_counterexample :
    (linkCounts cexBase.host (extractLinks cexResolve ["https://other.example/x"] cexBase)).2 ≠
      (distinctCrossHostLinks cexResolve ["https://other.example/x"] cexBase).length := by
  decide

/-- C1 (amended): for every page fetched by the crawl (whose hostname equals the
seed hostname), `internal_links` equals the number of distinct same-hostname
links extracted from that page's own HTML — independent of any visited state,
which the computation never consults — and `external_links` is always `0`,
because cross-host links are discarded during extraction rather than counted. -/
theorem c1_link_counts_amended (resolve : String → Url → Option Url)
    (hrefs : List String) (base : Url) (seedHost : String) (hseed : base.host = seedHost) :
    (linkCounts seedHost (extractLinks resolve hrefs base)).1 =
      (distinctSameHostLinks resolve hrefs base).length ∧
    (linkCounts seedHost (extractLinks resolve hrefs base)).2 = 0 := by
  subst hseed
  have hall : (extractLinks resolve hrefs base).filter (fun l => decide (l.host = base.host)) =
      extractLinks resolve hrefs base :=
    List.filter_eq_self.mpr (fun u hu => by simp [host_of_mem_extractLinks hu])
  refine ⟨?_, ?_⟩
  · simp only [linkCounts, hall]
    rw [extractLinks_eq_sameHost]
  · simp only [linkCounts, hall]
    omega

theorem c1_link_counts_amended_witness :
    (linkCounts "example.com" (extractLinks cexResolve ["https://example.com/a"] cexBase)).1 =
      (distinctSameHostLinks cexResolve ["https://example.com/a"] cexBase).length ∧
    (linkCounts "example.com" (extractLinks cexResolve ["https://example.com/a"] cexBase)).2 = 0 :=
  c1_link_counts_amended cexResolve ["https://example.com/a"] cexBase "example.com" rfl

/-- C2 (code bug): the condition
`page.url === page.url.replace(/\/$/, '') || page.url.endsWith('/')`
(part_000 line 58) is a tautology — a URL either ends in `/` or is unchanged by
removing a trailing `/` — so every retained page is classified `homepage` and
the `/blog`, `/about`, `/contact`, `/product`/`/service` branches are dead
code.  At the failing input, a non-root URL containing `/blog`, the detector
returns type `homepage`, not the `blog` the classification chain (and its own
branch structure) intends. -/
theorem c2_blog_page_classified_homepage :
    (detectKeyPages [c2page]).map KeyPageRec.type = ["homepage"] ∧
    classifyUrl c2page.url ≠ "blog" := by
  decide

theorem scoreChangesOf_eq (cur base : MonSnapshot) :
    scoreChangesOf cur base =
      if fallbackScore cur = fallbackScore base then [] else
        scoreMetricNames.map (fun m =>
          { type := m, baseline := fallbackScore base, current := fallbackScore cur,
            delta := fallbackScore cur - fallbackScore base }) := by
  unfold scoreChangesOf
  by_cases h : fallbackScore cur = fallbackScore base <;>
    simp [h, scoreMetricNames]

/-- C3: in `compareWithBaseline` the current and baseline scores compared for
each of the three metric names are both computed by the metric-independent
fallback chain `fallbackScore`, so for every pair of snapshots the diff
contains either zero score-type change entries or exactly three — one per
metric name — all carrying the identical baseline, current and delta values. -/
theorem c3_score_changes_all_or_nothing (cur base : MonSnapshot) :
    ((compareWithBaseline cur base).changes.filter isScoreMetricType) = [] ∨
    ((compareWithBaseline cur base).changes.filter isScoreMetricType) =
      scoreMetricNames.map (fun m =>
        { type := m, baseline := fallbackScore base, current := fallbackScore cur,
          delta := fallbackScore cur - fallbackScore base }) := by
  have hpage : (pageChangesOf cur base).filter isScoreMetricType = [] := by
    unfold pageChangesOf
    split <;> simp [isScoreMetricType]
  have hissue : (issueChangesOf cur base).filter isScoreMetricType = [] := by
    unfold issueChangesOf
    split <;> simp [isScoreMetricType]
  have hsd : (sdChangesOf cur base).filter isScoreMetricType = [] := by
    unfold sdChangesOf
    split <;> simp [isScoreMetricType]
  by_cases h : fallbackScore cur = fallbackScore base
  · left
    simp [compareWithBaseline, List.filter_append, hpage, hissue, hsd, scoreChangesOf_eq, h]
  · right
    simp [compareWithBaseline, List.filter_append, hpage, hissue, hsd, scoreChangesOf_eq, h,
      isScoreMetricType, scoreMetricNames]

/-- C4: comparing a snapshot against itself yields a diff with an empty change
list and `summary.has_changes = false`. -/
theorem c4_compare_self_no_changes (S : MonSnapshot) :
    (compareWithBaseline S S).changes = [] ∧
    (compareWithBaseline S S).summary.has_changes = false := by
  have h : (compareWithBaseline S S).changes = [] := by
    simp [compareWithBaseline, pageChangesOf, scoreChangesOf, issueChangesOf, sdChangesOf]
  refine ⟨h, ?_⟩
  simp [compareWithBaseline, pageChangesOf, scoreChangesOf, issueChangesOf, sdChangesOf]

theorem flatMapCongr {α β : Type} {l : List α} {f g : α → List β}
    (h : ∀ a ∈ l, f a = g a) : l.flatMap f = l.flatMap g := by
  induction l with
  | nil => rfl
  | cons a t ih =>
      simp only [List.flatMap_cons]
      rw [h a (List.mem_cons_self a t), ih (fun b hb => h b (List.mem_cons_of_mem a hb))]

/-- C5: over any diff made of the change types the comparison produces,
`checkThresholds` returns exactly the alerts of three independent gates applied
to each change entry — critical for an `issues_count` delta above
`new_issues_critical`, warning for each score-metric delta below
`-score_drop_above`, warning for a `page_count` delta below
`-pages_removed_above` — so several alerts can fire from one run. -/
theorem c5_thresholds_are_independent_gates (diff : Diff) (t : Thresholds)
    (h : ∀ c ∈ diff.changes, c.type ∈ monChangeTypes) :
    checkThresholds diff t = diff.changes.flatMap (specChangeAlerts t) := by
  unfold checkThresholds
  apply flatMapCongr
  intro c hc
  have hmem := h c hc
  simp only [monChangeTypes, List.mem_cons, List.not_mem_nil, or_false] at hmem
  unfold changeAlerts specChangeAlerts
  rcases hmem with h1 | h1 | h1 | h1 | h1 | h1 <;>
    rw [h1] <;> simp [show strIncludes "page_count" "score" = false from by decide,
      show strIncludes "health_score" "score" = true from by decide,
      show strIncludes "citation_score" "score" = true from by decide,
      show strIncludes "content_coverage_score" "score" = true from by decide,
      show strIncludes "issues_count" "score" = false from by decide,
      show strIncludes "structured_data_count" "score" = false from by decide]

theorem c5_thresholds_are_independent_gates_witness :
    checkThresholds c5diffW c5thrW = c5diffW.changes.flatMap (specChangeAlerts c5thrW) :=
  c5_thresholds_are_independent_gates c5diffW c5thrW (by decide)

/-- C8: on a snapshot with exactly one page — status 200, 30 words, a non-empty
title, no meta description, no H1, no images — the Content Coverage analyzer
emits exactly `missing_meta_description` (high), `missing_h1` (high) and
`thin_content` (medium), in that order, and the coverage score is
`100 - 15 - 15 - 5 = 65`. -/
theorem c8_single_page_content_coverage :
    (analyzeContentCoverage { pages := some [c8page] }).issues = [
      { type := "missing_meta_description", severity := "high", page := "https://example.com/",
        message := "Page missing meta description" },
      { type := "missing_h1", severity := "high", page := "https://example.com/",
        message := "Page missing H1 heading" },
      { type := "thin_content", severity := "medium", page := "https://example.com/",
        message := "Very low word count (30). Pages should have substantial content." }] ∧
    (analyzeContentCoverage { pages := some [c8page] }).summary.coverage_score
      = 100 - 15 - 15 - 5 := by
  decide

theorem pushHistory_short (h : List HistEntry) (e : HistEntry) (hl : h.length ≤ 29) :
    pushHistory h e = h ++ [e] := by
  unfold pushHistory
  rw [if_neg]
  simp only [List.length_append, List.length_singleton]
  omega

theorem pushHistory_long (h : List HistEntry) (e : HistEntry) (hl : h.length = 30) :
    pushHistory h e = h.drop 1 ++ [e] := by
  unfold pushHistory
  rw [if_pos (by simp [hl])]
  have hlen : (h ++ [e]).length - 30 = 1 := by simp [hl]
  rw [hlen, List.drop_append_eq_append_drop]
  simp [hl]

theorem foldl_pushHistory (es : List HistEntry) :
    List.foldl pushHistory [] es = es.drop (es.length - 30) := by
  induction es using List.reverseRecOn with
  | nil => rfl
  | append_singleton l a ih =>
      rw [List.foldl_append, List.foldl_cons, List.foldl_nil, ih]
      by_cases hlen : l.length ≤ 29
      · have h0 : l.length - 30 = 0 := by omega
        have hL2 : (l ++ [a]).length = l.length + 1 := by simp
        have hR : (l ++ [a]).length - 30 = 0 := by omega
        rw [h0, List.drop_zero, pushHistory_short l a hlen, hR, List.drop_zero]
      · have hdl : (l.drop (l.length - 30)).length = 30 := by
          rw [List.length_drop]
          omega
        rw [pushHistory_long _ a hdl, List.drop_drop]
        have harg2 : l.length - 30 + 1 = l.length - 29 := by omega
        have hL2 : (l ++ [a]).length = l.length + 1 := by simp
        have hR : (l ++ [a]).length - 30 = l.length - 29 := by omega
        rw [hR, List.drop_append_eq_append_drop]
        have h4 : l.length - 29 - l.length = 0 := by omega
        rw [harg2, h4, List.drop_zero]

/-- C9: starting from an empty history (configuration enabled, baseline
present), 35 sequential `runMonitoringCheck` calls leave the persisted history
holding exactly the entries produced by the most recent 30 calls, in call
order — the first 5 entries are evicted, oldest first. -/
theorem c9_history_keeps_last_30 (t : Thresholds) (base : MonSnapshot)
    (snaps : List MonSnapshot) (h : snaps.length = 35) :
    runChecks t base [] snaps = (snaps.map (mkHistEntry t base)).drop 5 := by
  unfold runChecks
  rw [← List.foldl_map, foldl_pushHistory, List.length_map, h]

theorem c9_history_keeps_last_30_witness :
    runChecks monT0 monS0 [] (List.replicate 35 monS0) =
      ((List.replicate 35 monS0).map (mkHistEntry monT0 monS0)).drop 5 :=
  c9_history_keeps_last_30 monT0 monS0 (List.replicate 35 monS0) (by simp)

/-- C10: a page whose HTML carries two `<script type="application/ld+json">`
blocks, one parsing and one malformed (in either order), contributes exactly
one `json-ld` entry to its structured-data extraction: the malformed block is
skipped individually and neither the sibling block nor the page's other
structured-data entries are dropped. -/
theorem c10_one_valid_one_malformed_jsonld (b1 b2 : Option JsonValue)
    (ogTags twitterTags : List (String × String)) (microItems : List (String × String))
    (h : (b1 = none ∧ b2.isSome = true) ∨ (b1.isSome = true ∧ b2 = none)) :
    ((extractStructuredData [b1, b2] ogTags twitterTags microItems).filter
      (fun e => decide (e.type = "json-ld"))).length = 1 := by
  have hmicro : (microItems.map (fun em =>
      ({ type := "microdata", schema := JsonValue.str (microSchema em.2),
         data := SDData.micro em.1 em.2 } : SDEntry))).filter
      (fun e => decide (e.type = "json-ld")) = [] := by
    induction microItems with
    | nil => rfl
    | cons x xs ih => simp [ih]
  have hog : (if ogTags.isEmpty then ([] : List SDEntry) else
      [{ type := "opengraph", schema := JsonValue.str (jsTagOr ogTags "og:type" "website"),
         data := SDData.tags ogTags }]).filter (fun e => decide (e.type = "json-ld")) = [] := by
    split <;> simp
  have htw : (if twitterTags.isEmpty then ([] : List SDEntry) else
      [{ type := "twitter-card", schema := JsonValue.str (jsTagOr twitterTags "twitter:card" "summary"),
         data := SDData.tags twitterTags }]).filter (fun e => decide (e.type = "json-ld")) = [] := by
    split <;> simp
  rcases h with ⟨h1, h2⟩ | ⟨h1, h2⟩
  · obtain ⟨j, rfl⟩ := Option.isSome_iff_exists.mp h2
    subst h1
    simp [extractStructuredData, List.filter_append, hmicro, hog, htw]
  · obtain ⟨j, rfl⟩ := Option.isSome_iff_exists.mp h1
    subst h2
    simp [extractStructuredData, List.filter_append, hmicro, hog, htw]

theorem c10_one_valid_one_malformed_jsonld_witness :
    ((extractStructuredData
        [some (JsonValue.obj [("@type", JsonValue.str "Organization")]), none]
        [("og:type", "website")] [] [("div", "https://schema.org/Person")]).filter
      (fun e => decide (e.type = "json-ld"))).length = 1 :=
  c10_one_valid_one_malformed_jsonld
    (some (JsonValue.obj [("@type", JsonValue.str "Organization")])) none
    [("og:type", "website")] [] [("div", "https://schema.org/Person")]
    (Or.inr ⟨rfl, rfl⟩)

theorem crawlInv_push (s : CrawlState) (u : Url) (p : CrawlPage)
    (hs : CrawlInv s) (hnv : u.href ∉ s.visited) (hlt : s.pages.length < maxPages)
    (hurl : p.url = u.href) :
    CrawlInv { visited := u.href :: s.visited, pages := s.pages ++ [p] } := by
  obtain ⟨hlen, hnodup, hvis⟩ := hs
  have hnotin : u.href ∉ s.pages.map CrawlPage.url := by
    intro hmem
    obtain ⟨q, hq, hqe⟩ := List.mem_map.mp hmem
    exact hnv (hqe ▸ hvis q hq)
  refine ⟨?_, ?_, ?_⟩
  · simp only [List.length_append, List.length_singleton]
    omega
  · rw [List.map_append]
    simp only [List.map_cons, List.map_nil, hurl]
    rw [List.nodup_append]
    refine ⟨hnodup, List.nodup_singleton _, ?_⟩
    intro a ha hb
    simp only [List.mem_singleton] at hb
    subst hb
    exact hnotin ha
  · intro p2 hp2
    rcases List.mem_append.mp hp2 with h | h
    · exact List.mem_cons_of_mem _ (hvis p2 h)
    · simp only [List.mem_singleton] at h
      subst h
      simp [hurl]

theorem crawl_inv_all (env : CrawlEnv) : ∀ fuel : Nat,
    (∀ u s, CrawlInv s → CrawlInv (crawlGo env fuel u s)) ∧
    (∀ ls s, CrawlInv s → CrawlInv (crawlList env fuel ls s)) := by
  intro fuel
  induction fuel with
  | zero =>
      constructor
      · intro u s hs
        simpa only [crawlGo] using hs
      · intro ls
        induction ls with
        | nil =>
            intro s hs
            simpa only [crawlList] using hs
        | cons l tl ih =>
            intro s hs
            simp only [crawlList]
            apply ih
            split
            · exact hs
            · simpa only [crawlGo] using hs
  | succ n ih =>
      have hGo : ∀ u s, CrawlInv s → CrawlInv (crawlGo env (n + 1) u s) := by
        intro u s hs
        simp only [crawlGo]
        split
        · exact hs
        · rename_i hguard
          push_neg at hguard
          obtain ⟨hnv, hlt⟩ := hguard
          cases hoc : env.oracle u.href with
          | err msg =>
              exact crawlInv_push s u _ hs hnv (by omega) rfl
          | ok status hrefs =>
              apply ih.2
              exact crawlInv_push s u _ hs hnv (by omega) rfl
      have hList : ∀ ls s, CrawlInv s → CrawlInv (crawlList env (n + 1) ls s) := by
        intro ls
        induction ls with
        | nil =>
            intro s hs
            simpa only [crawlList] using hs
        | cons l tl ihl =>
            intro s hs
            simp only [crawlList]
            apply ihl
            split
            · exact hs
            · exact hGo _ _ hs
      exact ⟨hGo, hList⟩

/-- C6: every crawl run — any environment, any seed URL, any recursion depth —
ends with at most `maxPages` (= 10) recorded pages and with pairwise-distinct
page URLs: the visited set guarantees no URL is fetched or recorded twice and
the entry guard enforces the page budget. -/
theorem c6_crawl_bounded_and_urls_unique (env : CrawlEnv) (fuel : Nat) (u : Url) :
    (crawlGo env fuel u { visited := [], pages := [] }).pages.length ≤ maxPages ∧
    ((crawlGo env fuel u { visited := [], pages := [] }).pages.map CrawlPage.url).Nodup := by
  have hinit : CrawlInv { visited := ([] : List String), pages := ([] : List CrawlPage) } := by
    refine ⟨by simp [maxPages], List.nodup_nil, ?_⟩
    intro p hp
    exact absurd hp (List.not_mem_nil p)
  have h := (crawl_inv_all env fuel).1 u _ hinit
  exact ⟨h.1, h.2.1⟩

theorem statusErrInv_append (s : CrawlState) (v : List String) (p : CrawlPage)
    (hs : StatusErrInv s) (hp : p.status_code = 0 ↔ p.error.isSome = true) :
    StatusErrInv { visited := v, pages := s.pages ++ [p] } := by
  intro q hq
  rcases List.mem_append.mp hq with h | h
  · exact hs q h
  · simp only [List.mem_singleton] at h
    subst h
    exact hp

theorem crawl_statusErr_all (env : CrawlEnv) (hor : OracleNonZero env) : ∀ fuel : Nat,
    (∀ u s, StatusErrInv s → StatusErrInv (crawlGo env fuel u s)) ∧
    (∀ ls s, StatusErrInv s → StatusErrInv (crawlList env fuel ls s)) := by
  intro fuel
  induction fuel with
  | zero =>
      constructor
      · intro u s hs
        simpa only [crawlGo] using hs
      · intro ls
        induction ls with
        | nil =>
            intro s hs
            simpa only [crawlList] using hs
        | cons l tl ih =>
            intro s hs
            simp only [crawlList]
            apply ih
            split
            · exact hs
            · simpa only [crawlGo] using hs
  | succ n ih =>
      have hGo : ∀ u s, StatusErrInv s → StatusErrInv (crawlGo env (n + 1) u s) := by
        intro u s hs
        simp only [crawlGo]
        split
        · exact hs
        · cases hoc : env.oracle u.href with
          | err msg =>
              exact statusErrInv_append s _ _ hs (by simp)
          | ok status hrefs =>
              apply ih.2
              have hnz : status ≠ 0 := hor u.href status hrefs hoc
              refine statusErrInv_append s _ _ hs ?_
              constructor
              · intro h
                exact absurd h hnz
              · intro h
                simp at h
      have hList : ∀ ls s, StatusErrInv s → StatusErrInv (crawlList env (n + 1) ls s) := by
        intro ls
        induction ls with
        | nil =>
            intro s hs
            simpa only [crawlList] using hs
        | cons l tl ihl =>
            intro s hs
            simp only [crawlList]
            apply ihl
            split
            · exact hs
            · exact hGo _ _ hs
      exact ⟨hGo, hList⟩

/-- C7: for every crawl against an oracle obeying HTTP semantics (a non-thrown
response never has status 0), each recorded Page Record satisfies
`status_code = 0` iff its `error` field is present — a fetch failure or timeout
records a status-0 record carrying the error message (and the traversal
continues, as the state-passing recursion shows), while every success record
has a non-zero status and no error. -/
theorem c7_status_zero_iff_error (env : CrawlEnv) (hor : OracleNonZero env) (fuel : Nat)
    (u : Url) (p : CrawlPage)
    (hp : p ∈ (crawlGo env fuel u { visited := [], pages := [] }).pages) :
    p.status_code = 0 ↔ p.error.isSome = true :=
  (crawl_statusErr_all env hor fuel).1 u { visited := [], pages := [] }
    (fun q hq => absurd hq (List.not_mem_nil q)) p hp

theorem c7_run_eq : crawlGo c7envW 1 cexBase { visited := [], pages := [] } =
    { visited := ["https://example.com/"],
      pages := [{ url := "https://example.com/", status_code := 200, error := none,
                  internal_links := some 0, external_links := some 0 }] } := by
  simp [crawlGo, crawlList, c7envW, cexBase, maxPages, extractLinks, dedupFirst, dedupSeen,
    linkCounts]

theorem c7_status_zero_iff_error_witness :
    (({ url := "https://example.com/", status_code := 200, error := none,
        internal_links := some 0, external_links := some 0 } : CrawlPage).status_code = 0 ↔
      ({ url := "https://example.com/", status_code := 200, error := none,
         internal_links := some 0, external_links := some 0 } : CrawlPage).error.isSome = true) :=
  c7_status_zero_iff_error c7envW
    (by
      intro url st hrefs h
      unfold c7envW at h
      by_cases hu : url = "https://example.com/"
      · simp only [hu, if_pos] at h
        cases h
        decide
      · simp only [if_neg hu] at h
        exact FetchOutcome.noConfusion h)
    1 cexBase _
    (by
      rw [c7_run_eq]
      simp)
